import Mathlib

/-!
Verification of the `schema_registry` Python SDK (client.py, models.py,
exceptions.py): a shallow embedding of the client's data model, error
translation, caching, and retry policy, together with theorems settling
the specification's claims about them.

Conventions of the embedding:
* machine strings are Lean `String`s; `datetime` values are `Nat` timestamps;
* `response.json()` is modelled by optional pre-parsed views on `Response`
  (`errorJson` for the error-body shape, `record` / `registerBody` / ... for
  the success shapes), with `none` meaning the body is not parseable as that
  shape;
* Python exceptions that escape the SDK's own taxonomy (UnboundLocalError,
  ValueError) are explicit constructors of `PyError`;
* a client call is a function of the current cache contents, the current
  time (seconds), the request parameters, and a `world` assigning to every
  attempt number the network's behaviour (timeout, or a concrete response).
-/

set_option autoImplicit false

namespace SchemaRegistry

/-- models.SchemaFormat. -/
inductive SchemaFormat
  | json_schema
  | avro
  | protobuf
deriving DecidableEq, Repr

/-- models.CompatibilityMode. -/
inductive CompatibilityMode
  | backward
  | forward
  | full
  | backward_transitive
  | forward_transitive
  | full_transitive
  | none
deriving DecidableEq, Repr

/-- models.SchemaMetadata (the `custom` dict is modelled as a key/value list). -/
structure SchemaMetadata where
  description : Option String
  tags : List String
  owner : Option String
  custom : List (String × String)
deriving DecidableEq, Repr

/-- models.Schema (already validated by pydantic: values of this type exist
only for version strings accepted by `validate_version`, see `mkSchema`). -/
structure Schema where
  «namespace» : String
  name : String
  version : String
  format : SchemaFormat
  content : String
  metadata : Option SchemaMetadata
deriving DecidableEq, Repr

/-- Python `str.split(".")`, auxiliary recursion over the characters. -/
def splitDotAux : List Char → List Char → List String
  | [], acc => [String.mk acc.reverse]
  | c :: cs, acc =>
    if c = '.' then String.mk acc.reverse :: splitDotAux cs []
    else splitDotAux cs (c :: acc)

/-- Python `v.split(".")`: dot-separated pieces, `"".split(".") = [""]`. -/
def pySplitDot (s : String) : List String := splitDotAux s.data []

/-- The codepoint ranges on which Python `str.isdigit()` is true (Unicode
property Numeric_Type = Digit or Decimal), enumerated from the CPython
runtime the SDK targets. Wider than ASCII: it also holds for non-decimal
digit characters such as the superscript two, codepoint 178, which `int()`
rejects. -/
def pyDigitRanges : List (Nat × Nat) := [
  (48, 57), (178, 179), (185, 185), (1632, 1641), (1776, 1785), (1984, 1993), (2406, 2415),
  (2534, 2543), (2662, 2671), (2790, 2799), (2918, 2927), (3046, 3055), (3174, 3183),
  (3302, 3311), (3430, 3439), (3558, 3567), (3664, 3673), (3792, 3801), (3872, 3881),
  (4160, 4169), (4240, 4249), (4969, 4977), (6112, 6121), (6160, 6169), (6470, 6479),
  (6608, 6618), (6784, 6793), (6800, 6809), (6992, 7001), (7088, 7097), (7232, 7241),
  (7248, 7257), (8304, 8304), (8308, 8313), (8320, 8329), (9312, 9320), (9332, 9340),
  (9352, 9360), (9450, 9450), (9461, 9469), (9471, 9471), (10102, 10110), (10112, 10120),
  (10122, 10130), (42528, 42537), (43216, 43225), (43264, 43273), (43472, 43481),
  (43504, 43513), (43600, 43609), (44016, 44025), (65296, 65305), (66720, 66729),
  (68160, 68163), (68912, 68921), (69216, 69224), (69714, 69722), (69734, 69743),
  (69872, 69881), (69942, 69951), (70096, 70105), (70384, 70393), (70736, 70745),
  (70864, 70873), (71248, 71257), (71360, 71369), (71472, 71481), (71904, 71913),
  (72016, 72025), (72784, 72793), (73040, 73049), (73120, 73129), (92768, 92777),
  (92864, 92873), (93008, 93017), (120782, 120831), (123200, 123209), (123632, 123641),
  (125264, 125273), (127232, 127242), (130032, 130041)]

/-- Python's per-character `str.isdigit()` test: the codepoint lies in one of
`pyDigitRanges`. -/
def pyCharIsdigit (c : Char) : Bool :=
  pyDigitRanges.any (fun r => r.1 ≤ c.toNat && c.toNat ≤ r.2)

/-- Python `str.isdigit()` on a string: nonempty and every character a
(Unicode) digit. -/
def pyIsdigit (s : String) : Bool := !s.data.isEmpty && s.data.all pyCharIsdigit

/-- models.Schema.validate_version: the pydantic field validator for `version`.
Splits on ".", requires exactly three parts, each of which is a digit string;
returns the string unchanged on success, a ValueError message on failure. -/
def validate_version (v : String) : Except String String :=
  let parts := pySplitDot v
  if parts.length ≠ 3 then
    .error "Version must be in semver format (major.minor.patch)"
  else
    match parts.find? (fun part => !pyIsdigit part) with
    | some part => .error ("Version part must be numeric: " ++ part)
    | Option.none => .ok v

/-- Constructing a models.Schema value: pydantic runs `validate_version`
before the object exists, so an invalid version never reaches the client. -/
def mkSchema (ns nm ver : String) (format : SchemaFormat) (content : String)
    (metadata : Option SchemaMetadata) : Except String Schema :=
  match validate_version ver with
  | .error e => .error e
  | .ok v => .ok ⟨ns, nm, v, format, content, metadata⟩

/-- models.RegisterSchemaResponse. -/
structure RegisterSchemaResponse where
  schema_id : String
  version : String
  created_at : Nat
deriving DecidableEq, Repr

/-- models.GetSchemaResponse. -/
structure GetSchemaResponse where
  schema_id : String
  «namespace» : String
  name : String
  version : String
  format : SchemaFormat
  content : String
  metadata : Option SchemaMetadata
  created_at : Nat
  updated_at : Nat
deriving DecidableEq, Repr

/-- models.ValidateResponse. -/
structure ValidateResponse where
  is_valid : Bool
  errors : List String
deriving DecidableEq, Repr

/-- models.CompatibilityResult. -/
structure CompatibilityResult where
  is_compatible : Bool
  incompatibilities : List String
  mode : CompatibilityMode
deriving DecidableEq, Repr

/-- models.SchemaVersion. -/
structure SchemaVersion where
  version : String
  schema_id : String
  created_at : Nat
deriving DecidableEq, Repr

/-- exceptions.py: the typed error taxonomy, one constructor per exception
class (each stores exactly the data its constructor stores). -/
inductive RegistryError
  | registryErr (message : String) (status_code : Option Nat)
  | notFound (schema_id : String)
  | validation (errors : List String)
  | incompatible (incompatibilities : List String)
  | authentication (message : String)
  | authorization (message : String)
  | rateLimit (retry_after : Option Int)
  | server (message : String)
deriving DecidableEq, Repr

/-- Everything a client call can raise: the SDK's typed errors, the httpx
timeout, Python runtime errors escaping `_handle_response_error`
(UnboundLocalError on the 409 path, ValueError from `int()`), a pydantic
parse failure of a success body, and tenacity's RetryError after an
exhausted budget. -/
inductive PyError
  | registry (e : RegistryError)
  | timeout
  | unboundLocal (name : String)
  | valueError (message : String)
  | parseFailure (what : String)
  | retryExhausted (last : PyError)
deriving DecidableEq, Repr

/-- The error-body shape `_handle_response_error` reads from `response.json()`. -/
structure ErrorBody where
  message : Option String
  incompatibilities : Option (List String)
deriving DecidableEq, Repr

/-- An httpx response, with `response.json()` modelled as optional pre-parsed
views (`none` = body not parseable as that shape). -/
structure Response where
  status : Nat
  text : String
  errorJson : Option ErrorBody
  record : Option GetSchemaResponse
  registerBody : Option RegisterSchemaResponse
  validateBody : Option ValidateResponse
  compatBody : Option CompatibilityResult
  versionsBody : Option (List SchemaVersion)
  retryAfterHeader : Option String
deriving DecidableEq, Repr

/-- httpx `Response.is_success`: a 2xx status. -/
def isSuccess (status : Nat) : Bool := 200 ≤ status && status < 300

/-- The codepoint ranges of the digits Python `int()` accepts (the Unicode
decimal digits), enumerated from the CPython runtime: each range is ten
codepoints carrying the values 0 through 9. Narrower than `str.isdigit()`:
`int()` rejects e.g. the superscript two. -/
def pyDecimalDigitRanges : List (Nat × Nat) := [
  (48, 57), (1632, 1641), (1776, 1785), (1984, 1993), (2406, 2415), (2534, 2543), (2662, 2671),
  (2790, 2799), (2918, 2927), (3046, 3055), (3174, 3183), (3302, 3311), (3430, 3439),
  (3558, 3567), (3664, 3673), (3792, 3801), (3872, 3881), (4160, 4169), (4240, 4249),
  (6112, 6121), (6160, 6169), (6470, 6479), (6608, 6617), (6784, 6793), (6800, 6809),
  (6992, 7001), (7088, 7097), (7232, 7241), (7248, 7257), (42528, 42537), (43216, 43225),
  (43264, 43273), (43472, 43481), (43504, 43513), (43600, 43609), (44016, 44025),
  (65296, 65305), (66720, 66729), (68912, 68921), (69734, 69743), (69872, 69881),
  (69942, 69951), (70096, 70105), (70384, 70393), (70736, 70745), (70864, 70873),
  (71248, 71257), (71360, 71369), (71472, 71481), (71904, 71913), (72016, 72025),
  (72784, 72793), (73040, 73049), (73120, 73129), (92768, 92777), (92864, 92873),
  (93008, 93017), (120782, 120791), (120792, 120801), (120802, 120811), (120812, 120821),
  (120822, 120831), (123200, 123209), (123632, 123641), (125264, 125273), (130032, 130041)]

/-- The decimal value `int()` assigns to a character, when it accepts it. -/
def pyDecimalVal? (c : Char) : Option Nat :=
  match pyDecimalDigitRanges.find? (fun r => r.1 ≤ c.toNat && c.toNat ≤ r.2) with
  | some r => some (c.toNat - r.1)
  | Option.none => Option.none

/-- The codepoints `int()` strips as surrounding whitespace (Unicode
whitespace), enumerated from the CPython runtime. -/
def pyWhitespaceCodes : List Nat :=
  [9, 10, 11, 12, 13, 32, 133, 160, 5760, 8192, 8193, 8194, 8195, 8196, 8197,
   8198, 8199, 8200, 8201, 8202, 8232, 8233, 8239, 8287, 12288]

/-- Python's whitespace test used when `int()` strips its argument. -/
def pyIsSpace (c : Char) : Bool := pyWhitespaceCodes.contains c.toNat

/-- The digit tail of an `int()` literal: further digits, with a single
underscore allowed only between two digits. -/
def pyIntDigitsAux : List Char → Nat → Option Nat
  | [], acc => some acc
  | '_' :: c :: cs, acc =>
    match pyDecimalVal? c with
    | some d => pyIntDigitsAux cs (10 * acc + d)
    | Option.none => Option.none
  | ['_'], _ => Option.none
  | c :: cs, acc =>
    match pyDecimalVal? c with
    | some d => pyIntDigitsAux cs (10 * acc + d)
    | Option.none => Option.none

/-- The digit run of an `int()` literal: nonempty, starting with a digit. -/
def pyIntDigits : List Char → Option Nat
  | [] => Option.none
  | c :: cs =>
    match pyDecimalVal? c with
    | some d => pyIntDigitsAux cs d
    | Option.none => Option.none

/-- Python `int()` applied to a string: surrounding Unicode whitespace is
stripped, an optional single sign precedes a nonempty run of Unicode decimal
digits with single underscores allowed between digits; `none` models the
ValueError on anything else. -/
def pyInt (s : String) : Option Int :=
  let cs := ((s.data.dropWhile pyIsSpace).reverse.dropWhile pyIsSpace).reverse
  match cs with
  | '+' :: rest => (pyIntDigits rest).map (fun n => (n : Int))
  | '-' :: rest => (pyIntDigits rest).map (fun n => -(n : Int))
  | rest => (pyIntDigits rest).map (fun n => (n : Int))

/-- The `message` computed at the top of `_handle_response_error`:
`error_data.get("message", response.text)` when the body parsed,
`response.text` when `response.json()` raised. -/
def errMessage (r : Response) : String :=
  match r.errorJson with
  | some d => d.message.getD r.text
  | Option.none => r.text

/-- client._handle_response_error: returns `()` on 2xx, otherwise raises.
Faithful to the source, including the slip on the 409 path: `error_data` is
assigned only inside the `try`, so a 409 whose body is not parseable JSON
raises UnboundLocalError instead of IncompatibleSchemaError, and a 429 with
a non-numeric Retry-After header raises ValueError from `int()`. -/
def handle_response_error (r : Response) : Except PyError Unit :=
  if isSuccess r.status then .ok ()
  else
    let message := errMessage r
    if r.status = 401 then .error (.registry (.authentication message))
    else if r.status = 403 then .error (.registry (.authorization message))
    else if r.status = 404 then .error (.registry (.notFound message))
    else if r.status = 409 then
      match r.errorJson with
      | some d => .error (.registry (.incompatible (d.incompatibilities.getD [message])))
      | Option.none => .error (.unboundLocal "error_data")
    else if r.status = 429 then
      match r.retryAfterHeader with
      | some s =>
        if s = "" then .error (.registry (.rateLimit Option.none))
        else
          match pyInt s with
          | some n => .error (.registry (.rateLimit (some n)))
          | Option.none => .error (.valueError s)
      | Option.none => .error (.registry (.rateLimit Option.none))
    else if 500 ≤ r.status then .error (.registry (.server message))
    else .error (.registry (.registryErr message (some r.status)))

/-- One entry of the cachetools `TTLCache`: a key, the cached record, and the
time it was stored (its expiry is `storedAt + ttl`). -/
structure CacheEntry where
  key : String
  val : GetSchemaResponse
  storedAt : Nat
deriving DecidableEq, Repr

/-- Modelled from the cachetools dependency the client instantiates: an entry
is live while `timer() < stored + ttl`. -/
def entryLive (ttl now : Nat) (e : CacheEntry) : Bool := now < e.storedAt + ttl

/-- cachetools `key in cache`: true only for a present, unexpired entry. -/
def cacheContains (ttl now : Nat) (c : List CacheEntry) (k : String) : Bool :=
  c.any (fun e => e.key = k && entryLive ttl now e)

/-- cachetools `cache[key]` read: the first live entry under the key. -/
def cacheGet (ttl now : Nat) (c : List CacheEntry) (k : String) :
    Option GetSchemaResponse :=
  (c.find? (fun e => e.key = k && entryLive ttl now e)).map (fun e => e.val)

/-- cachetools `cache[key] = value`: expired entries are dropped, the key is
overwritten, and the oldest-inserted entries are evicted while the cache is
over capacity (entries are kept in insertion order, oldest first). -/
def cacheSet (ttl maxsize now : Nat) (c : List CacheEntry) (k : String)
    (v : GetSchemaResponse) : List CacheEntry :=
  let pruned := (c.filter (fun e => entryLive ttl now e && e.key ≠ k)) ++ [⟨k, v, now⟩]
  pruned.drop (pruned.length - maxsize)

/-- cachetools `del cache[key]`. -/
def cacheDel (c : List CacheEntry) (k : String) : List CacheEntry :=
  c.filter (fun e => e.key ≠ k)

/-- The client's `if cache_key in self._cache: del self._cache[cache_key]`. -/
def cacheEvict (ttl now : Nat) (c : List CacheEntry) (k : String) :
    List CacheEntry :=
  if cacheContains ttl now c k then cacheDel c k else c

/-- client.SchemaRegistryClient.__init__: the construction parameters, fixed
for the client's lifetime. -/
structure ClientConfig where
  base_url : String
  api_key : Option String
  timeout : Nat
  max_retries : Nat
  cache_ttl : Nat
  cache_maxsize : Nat
deriving DecidableEq, Repr

/-- What the network does on one attempt: the request times out
(httpx.TimeoutException) or a response arrives. -/
inductive Attempt
  | timeoutAttempt
  | respond (r : Response)
deriving DecidableEq, Repr

/-- Outcome of one attempt (or of a whole call): the result or raised error,
the cache contents afterwards, and how many HTTP requests were issued. -/
structure StepOut (α : Type) where
  result : Except PyError α
  cache : List CacheEntry
  requests : Nat
deriving Repr

/-- The decorators' retry predicate, `retry_if_exception_type((httpx.TimeoutException, ServerError))`:
exactly timeouts and ServerError instances are retried. -/
def retryable : PyError → Bool
  | .timeout => true
  | .registry (.server _) => true
  | _ => false

/-- The literal `stop_after_attempt(3)`, as written in every decorator in client.py. -/
def stop_after_attempt_arg : Nat := 3

/-- Modelled from the spec: tenacity `wait_exponential(multiplier, min, max)` —
exponential backoff `multiplier * 2 ^ n` clamped to `[min, max]`. -/
def wait_exponential (multiplier lo hi n : Nat) : Nat :=
  max lo (min (multiplier * 2 ^ n) hi)

/-- The backoff sequence of every decorator:
`wait_exponential(multiplier=1, min=1, max=10)`. -/
def decoratorWait (n : Nat) : Nat := wait_exponential 1 1 10 n

/-- The tenacity retry loop around one operation body `f`, threading the
cache: run attempt `n`; on success or a non-retryable error stop; on a
retryable error retry while fuel remains, else raise RetryError wrapping the
last failure. Returns the outcome (requests accumulated over all attempts)
and the number of the attempt on which the loop stopped. -/
def runRetry {α : Type} (f : Attempt → List CacheEntry → StepOut α)
    (world : Nat → Attempt) :
    Nat → Nat → List CacheEntry → StepOut α × Nat
  | 0, n, c => (⟨.error (.retryExhausted .timeout), c, 0⟩, n)
  | fuel + 1, n, c =>
    let s := f (world n) c
    match s.result with
    | .ok a => (⟨.ok a, s.cache, s.requests⟩, n)
    | .error e =>
      if retryable e then
        if fuel = 0 then (⟨.error (.retryExhausted e), s.cache, s.requests⟩, n)
        else
          let out := runRetry f world fuel (n + 1) s.cache
          (⟨out.1.result, out.1.cache, s.requests + out.1.requests⟩, out.2)
      else (⟨.error e, s.cache, s.requests⟩, n)

/-- One decorated operation: the retry loop with the decorators' literal
`stop_after_attempt(3)` budget, starting at attempt 1. -/
def runOp {α : Type} (f : Attempt → List CacheEntry → StepOut α)
    (world : Nat → Attempt) (c : List CacheEntry) : StepOut α × Nat :=
  runRetry f world stop_after_attempt_arg 1 c

/-- One attempt of client.register_schema: POST the payload, translate any
error, parse the response, then evict the cache entry under the key
`f"{schema.namespace}.{schema.name}"` if present. -/
def attempt_register (cfg : ClientConfig) (t : Nat) (schema : Schema)
    (a : Attempt) (c : List CacheEntry) : StepOut RegisterSchemaResponse :=
  match a with
  | .timeoutAttempt => ⟨.error .timeout, c, 1⟩
  | .respond r =>
    match handle_response_error r with
    | .error e => ⟨.error e, c, 1⟩
    | .ok _ =>
      match r.registerBody with
      | some body =>
        let cache_key := schema.«namespace» ++ "." ++ schema.name
        ⟨.ok body, cacheEvict cfg.cache_ttl t c cache_key, 1⟩
      | Option.none => ⟨.error (.parseFailure "RegisterSchemaResponse"), c, 1⟩

/-- One attempt of client.get_schema: serve a live cache entry under
`f"schema:{schema_id}"` without I/O when `use_cache` is set, otherwise fetch,
translate errors, parse, and (when `use_cache`) store the result. -/
def attempt_get_schema (cfg : ClientConfig) (t : Nat) (schema_id : String)
    (use_cache : Bool) (a : Attempt) (c : List CacheEntry) :
    StepOut GetSchemaResponse :=
  let cache_key := "schema:" ++ schema_id
  match (if use_cache then cacheGet cfg.cache_ttl t c cache_key else Option.none) with
  | some v => ⟨.ok v, c, 0⟩
  | Option.none =>
    match a with
    | .timeoutAttempt => ⟨.error .timeout, c, 1⟩
    | .respond r =>
      match handle_response_error r with
      | .error e => ⟨.error e, c, 1⟩
      | .ok _ =>
        match r.record with
        | some result =>
          ⟨.ok result,
            (if use_cache then
              cacheSet cfg.cache_ttl cfg.cache_maxsize t c cache_key result
            else c), 1⟩
        | Option.none => ⟨.error (.parseFailure "GetSchemaResponse"), c, 1⟩

/-- One attempt of client.get_schema_by_version: like get_schema but the key
is `f"schema:{namespace}.{name}:{version}"` and the cache is always used
(no bypass flag). -/
def attempt_get_by_version (cfg : ClientConfig) (t : Nat)
    (ns nm ver : String) (a : Attempt) (c : List CacheEntry) :
    StepOut GetSchemaResponse :=
  let cache_key := "schema:" ++ ns ++ "." ++ nm ++ ":" ++ ver
  match cacheGet cfg.cache_ttl t c cache_key with
  | some v => ⟨.ok v, c, 0⟩
  | Option.none =>
    match a with
    | .timeoutAttempt => ⟨.error .timeout, c, 1⟩
    | .respond r =>
      match handle_response_error r with
      | .error e => ⟨.error e, c, 1⟩
      | .ok _ =>
        match r.record with
        | some result =>
          ⟨.ok result,
            cacheSet cfg.cache_ttl cfg.cache_maxsize t c cache_key result, 1⟩
        | Option.none => ⟨.error (.parseFailure "GetSchemaResponse"), c, 1⟩

/-- One attempt of client.delete_schema: DELETE, translate errors, then evict
the `f"schema:{schema_id}"` entry if present. -/
def attempt_delete (cfg : ClientConfig) (t : Nat) (schema_id : String)
    (a : Attempt) (c : List CacheEntry) : StepOut Unit :=
  match a with
  | .timeoutAttempt => ⟨.error .timeout, c, 1⟩
  | .respond r =>
    match handle_response_error r with
    | .error e => ⟨.error e, c, 1⟩
    | .ok _ =>
      let cache_key := "schema:" ++ schema_id
      ⟨.ok (), cacheEvict cfg.cache_ttl t c cache_key, 1⟩

/-- One attempt of an uncached request/parse operation (validate_data,
check_compatibility, list_versions, search_schemas, health_check all have
this shape: no cache read or write). -/
def attempt_plain {α : Type} (parse : Response → Option α) (a : Attempt)
    (c : List CacheEntry) : StepOut α :=
  match a with
  | .timeoutAttempt => ⟨.error .timeout, c, 1⟩
  | .respond r =>
    match handle_response_error r with
    | .error e => ⟨.error e, c, 1⟩
    | .ok _ =>
      match parse r with
      | some v => ⟨.ok v, c, 1⟩
      | Option.none => ⟨.error (.parseFailure "response body"), c, 1⟩

/-- client.register_schema, decorated with the retry policy. -/
def register_schema (cfg : ClientConfig) (c : List CacheEntry) (t : Nat)
    (schema : Schema) (world : Nat → Attempt) :
    StepOut RegisterSchemaResponse × Nat :=
  runOp (attempt_register cfg t schema) world c

/-- client.get_schema, decorated with the retry policy. -/
def get_schema (cfg : ClientConfig) (c : List CacheEntry) (t : Nat)
    (schema_id : String) (use_cache : Bool) (world : Nat → Attempt) :
    StepOut GetSchemaResponse × Nat :=
  runOp (attempt_get_schema cfg t schema_id use_cache) world c

/-- client.get_schema_by_version, decorated with the retry policy. -/
def get_schema_by_version (cfg : ClientConfig) (c : List CacheEntry) (t : Nat)
    (ns nm ver : String) (world : Nat → Attempt) :
    StepOut GetSchemaResponse × Nat :=
  runOp (attempt_get_by_version cfg t ns nm ver) world c

/-- client.validate_data, decorated with the retry policy (the request
payload does not influence the client-side control flow modelled here). -/
def validate_data (cfg : ClientConfig) (c : List CacheEntry) (t : Nat)
    (schema_id : String) (data : String) (world : Nat → Attempt) :
    StepOut ValidateResponse × Nat :=
  runOp (attempt_plain (fun r => r.validateBody)) world c

/-- client.check_compatibility, decorated with the retry policy. -/
def check_compatibility (cfg : ClientConfig) (c : List CacheEntry) (t : Nat)
    (schema_id : String) (new_schema_content : String)
    (mode : CompatibilityMode) (world : Nat → Attempt) :
    StepOut CompatibilityResult × Nat :=
  runOp (attempt_plain (fun r => r.compatBody)) world c

/-- client.list_versions, decorated with the retry policy. -/
def list_versions (cfg : ClientConfig) (c : List CacheEntry) (t : Nat)
    (ns nm : String) (world : Nat → Attempt) :
    StepOut (List SchemaVersion) × Nat :=
  runOp (attempt_plain (fun r => r.versionsBody)) world c

/-- client.delete_schema, decorated with the retry policy. -/
def delete_schema (cfg : ClientConfig) (c : List CacheEntry) (t : Nat)
    (schema_id : String) (world : Nat → Attempt) : StepOut Unit × Nat :=
  runOp (attempt_delete cfg t schema_id) world c

/-- The caller-side register flow: construct the pydantic Schema (which runs
`validate_version`) and, only if that succeeds, call register_schema. A
validation failure therefore happens before any request is issued. -/
def register_flow (cfg : ClientConfig) (c : List CacheEntry) (t : Nat)
    (ns nm ver : String) (format : SchemaFormat) (content : String)
    (world : Nat → Attempt) : StepOut RegisterSchemaResponse × Nat :=
  match mkSchema ns nm ver format content Option.none with
  | .error e => (⟨.error (.registry (.validation [e])), c, 0⟩, 0)
  | .ok s => register_schema cfg c t s world

/-! ## General lemmas about the error translation, the retry loop and the cache -/

theorem handle_success {r : Response} (h : isSuccess r.status = true) :
    handle_response_error r = .ok () := by
  simp [handle_response_error, h]

theorem handle_404 {r : Response} (h : r.status = 404) :
    handle_response_error r = .error (.registry (.notFound (errMessage r))) := by
  simp [handle_response_error, h, isSuccess]

theorem handle_server {r : Response} (h1 : isSuccess r.status = false)
    (h2 : 500 ≤ r.status) :
    handle_response_error r = .error (.registry (.server (errMessage r))) := by
  have e1 : r.status ≠ 401 := by omega
  have e2 : r.status ≠ 403 := by omega
  have e3 : r.status ≠ 404 := by omega
  have e4 : r.status ≠ 409 := by omega
  have e5 : r.status ≠ 429 := by omega
  simp [handle_response_error, h1, e1, e2, e3, e4, e5, h2]

/-- The function `_handle_response_error` produces a retryable error (a ServerError) only
for a status of at least 500. -/
theorem handle_retryable_imp_500 {r : Response} {e : PyError}
    (h : handle_response_error r = .error e) (hr : retryable e = true) :
    500 ≤ r.status := by
  unfold handle_response_error at h
  split at h
  · exact absurd h (by simp)
  · split at h
    · cases h; cases hr
    · split at h
      · cases h; cases hr
      · split at h
        · cases h; cases hr
        · split at h
          · split at h
            · cases h; cases hr
            · cases h; cases hr
          · split at h
            · split at h
              · split at h
                · cases h; cases hr
                · split at h
                  · cases h; cases hr
                  · cases h; cases hr
              · cases h; cases hr
            · split at h
              · assumption
              · cases h; cases hr

theorem runRetry_ok {α : Type} (f : Attempt → List CacheEntry → StepOut α)
    (world : Nat → Attempt) (fuel n : Nat) (c : List CacheEntry) (a : α)
    (h : (f (world n) c).result = .ok a) :
    runRetry f world (fuel + 1) n c
      = (⟨.ok a, (f (world n) c).cache, (f (world n) c).requests⟩, n) := by
  simp only [runRetry, h]

theorem runRetry_nonretryable {α : Type} (f : Attempt → List CacheEntry → StepOut α)
    (world : Nat → Attempt) (fuel n : Nat) (c : List CacheEntry) (e : PyError)
    (h : (f (world n) c).result = .error e) (hr : retryable e = false) :
    runRetry f world (fuel + 1) n c
      = (⟨.error e, (f (world n) c).cache, (f (world n) c).requests⟩, n) := by
  simp only [runRetry, h, hr]
  simp

/-- An operation whose first attempt succeeds stops after that attempt. -/
theorem runOp_ok {α : Type} (f : Attempt → List CacheEntry → StepOut α)
    (world : Nat → Attempt) (c : List CacheEntry) (a : α)
    (h : (f (world 1) c).result = .ok a) :
    runOp f world c = (⟨.ok a, (f (world 1) c).cache, (f (world 1) c).requests⟩, 1) :=
  runRetry_ok f world 2 1 c a h

/-- An operation whose first attempt raises a non-retryable error surfaces it
after exactly one attempt. -/
theorem runOp_nonretryable {α : Type} (f : Attempt → List CacheEntry → StepOut α)
    (world : Nat → Attempt) (c : List CacheEntry) (e : PyError)
    (h : (f (world 1) c).result = .error e) (hr : retryable e = false) :
    runOp f world c = (⟨.error e, (f (world 1) c).cache, (f (world 1) c).requests⟩, 1) :=
  runRetry_nonretryable f world 2 1 c e h hr

theorem runRetry_attempts_le {α : Type} (f : Attempt → List CacheEntry → StepOut α)
    (world : Nat → Attempt) :
    ∀ (fuel n : Nat) (c : List CacheEntry),
      (runRetry f world (fuel + 1) n c).2 ≤ n + fuel := by
  intro fuel
  induction fuel with
  | zero =>
    intro n c
    simp only [runRetry]
    split
    · simp
    · split
      · simp
      · simp
  | succ fuel ih =>
    intro n c
    simp only [runRetry]
    split
    · simp
    · split
      · split
        · simp
        · have := ih (n + 1) (match f (world n) c with | s => s.cache)
          simp only []
          calc (runRetry f world (fuel + 1) (n + 1) (f (world n) c).cache).2
              ≤ (n + 1) + fuel := ih (n + 1) _
            _ = n + (fuel + 1) := by omega
      · simp

/-- Every operation stops within the decorators' attempt budget of 3. -/
theorem runOp_attempts_le {α : Type} (f : Attempt → List CacheEntry → StepOut α)
    (world : Nat → Attempt) (c : List CacheEntry) :
    (runOp f world c).2 ≤ stop_after_attempt_arg :=
  runRetry_attempts_le f world 2 1 c

theorem runRetry_requests_ge {α : Type} (f : Attempt → List CacheEntry → StepOut α)
    (world : Nat → Attempt) (fuel n : Nat) (c : List CacheEntry) :
    (f (world n) c).requests ≤ (runRetry f world (fuel + 1) n c).1.requests := by
  simp only [runRetry]
  split
  · simp
  · split
    · split
      · simp
      · simp
    · simp

/-- The requests issued by an operation include those of its first attempt. -/
theorem runOp_requests_ge {α : Type} (f : Attempt → List CacheEntry → StepOut α)
    (world : Nat → Attempt) (c : List CacheEntry) :
    (f (world 1) c).requests ≤ (runOp f world c).1.requests :=
  runRetry_requests_ge f world 2 1 c

/-- Any property of the cache contents preserved by each attempt of `f` is
preserved by the retried operation. -/
theorem runRetry_cache_preserved {α : Type} (P : List CacheEntry → Prop)
    (f : Attempt → List CacheEntry → StepOut α) (world : Nat → Attempt)
    (hf : ∀ a c, P c → P ((f a c).cache)) :
    ∀ (fuel n : Nat) (c : List CacheEntry), P c →
      P ((runRetry f world fuel n c).1.cache) := by
  intro fuel
  induction fuel with
  | zero => intro n c hc; exact hc
  | succ fuel ih =>
    intro n c hc
    have h1 : P ((f (world n) c).cache) := hf _ _ hc
    simp only [runRetry]
    split
    · exact h1
    · split
      · split
        · exact h1
        · exact ih (n + 1) _ h1
      · exact h1

theorem cacheGet_eq_none_of_expired {ttl t : Nat} {c : List CacheEntry} {k : String}
    (h : ∀ e ∈ c, e.storedAt + ttl ≤ t) : cacheGet ttl t c k = Option.none := by
  unfold cacheGet
  rw [List.find?_eq_none.mpr]
  · rfl
  · intro e he
    simp only [entryLive, Bool.and_eq_true, decide_eq_true_eq, not_and]
    intro _
    have := h e he
    omega

theorem cacheSet_mem {ttl maxsize t : Nat} {c : List CacheEntry} {k : String}
    {v : GetSchemaResponse} {e : CacheEntry}
    (h : e ∈ cacheSet ttl maxsize t c k v) : e ∈ c ∨ e = ⟨k, v, t⟩ := by
  unfold cacheSet at h
  have h1 := List.mem_of_mem_drop h
  rcases List.mem_append.mp h1 with h2 | h2
  · exact Or.inl (List.mem_filter.mp h2).1
  · simp at h2
    exact Or.inr h2

theorem cacheGet_set_same {ttl maxsize t1 t2 : Nat} {c : List CacheEntry}
    {k : String} {v : GetSchemaResponse}
    (hmax : 1 ≤ maxsize) (hlive : t2 < t1 + ttl) :
    cacheGet ttl t2 (cacheSet ttl maxsize t1 c k v) k = some v := by
  unfold cacheGet cacheSet
  have hlen : (c.filter (fun e => entryLive ttl t1 e && e.key ≠ k) ++ [(⟨k, v, t1⟩ : CacheEntry)]).length - maxsize
      ≤ (c.filter (fun e => entryLive ttl t1 e && e.key ≠ k)).length := by
    simp [List.length_append]
    omega
  rw [List.drop_append_of_le_length hlen, List.find?_append]
  have h1 : ((c.filter (fun e => entryLive ttl t1 e && e.key ≠ k)).drop
      ((c.filter (fun e => entryLive ttl t1 e && e.key ≠ k) ++ [(⟨k, v, t1⟩ : CacheEntry)]).length - maxsize)).find?
      (fun e => e.key = k && entryLive ttl t2 e) = Option.none := by
    rw [List.find?_eq_none]
    intro e he
    have h2 := (List.mem_filter.mp (List.mem_of_mem_drop he)).2
    simp only [Bool.and_eq_true, decide_eq_true_eq, bne_iff_ne, ne_eq] at h2 ⊢
    intro hk
    exact absurd hk.1 h2.2
  rw [h1]
  simp [entryLive, hlive]

theorem find?_filter_of_imp {p q : CacheEntry → Bool} {l : List CacheEntry}
    (h : ∀ e, p e = true → q e = true) : (l.filter q).find? p = l.find? p := by
  induction l with
  | nil => rfl
  | cons e l ih =>
    by_cases hq : q e = true
    · rw [List.filter_cons_of_pos hq]
      by_cases hp : p e = true
      · rw [List.find?_cons_of_pos _ hp, List.find?_cons_of_pos _ hp]
      · rw [List.find?_cons_of_neg _ hp, List.find?_cons_of_neg _ hp, ih]
    · have hp : ¬ p e = true := fun hpe => hq (h e hpe)
      rw [List.filter_cons_of_neg hq, List.find?_cons_of_neg _ hp, ih]

theorem cacheGet_del_ne {ttl t : Nat} {c : List CacheEntry} {k k' : String}
    (h : k' ≠ k) : cacheGet ttl t (cacheDel c k) k' = cacheGet ttl t c k' := by
  unfold cacheGet cacheDel
  rw [find?_filter_of_imp]
  intro e he
  simp only [Bool.and_eq_true, decide_eq_true_eq] at he
  simp only [bne_iff_ne, ne_eq, decide_eq_true_eq]
  rw [he.1]
  exact h

theorem cacheGet_evict_ne {ttl tEvt t : Nat} {c : List CacheEntry} {k k' : String}
    (h : k' ≠ k) : cacheGet ttl t (cacheEvict ttl tEvt c k) k' = cacheGet ttl t c k' := by
  unfold cacheEvict
  split
  · exact cacheGet_del_ne h
  · rfl

theorem cacheContains_evict_self {ttl t : Nat} {c : List CacheEntry} {k : String} :
    cacheContains ttl t (cacheEvict ttl t c k) k = false := by
  unfold cacheEvict
  split
  · unfold cacheContains cacheDel
    rw [List.any_eq_false]
    intro e he
    have h2 := (List.mem_filter.mp he).2
    simp only [Bool.and_eq_true, decide_eq_true_eq, bne_iff_ne, ne_eq] at h2 ⊢
    intro hk
    exact absurd hk.1 h2
  · next hc => simpa using hc

theorem attempt_register_requests (cfg : ClientConfig) (t : Nat) (s : Schema)
    (a : Attempt) (c : List CacheEntry) :
    (attempt_register cfg t s a c).requests = 1 := by
  unfold attempt_register
  split
  · rfl
  · split
    · rfl
    · split
      · rfl
      · rfl

theorem attempt_get_requests_of_miss {cfg : ClientConfig} {t : Nat} {id : String}
    {a : Attempt} {c : List CacheEntry}
    (h : cacheGet cfg.cache_ttl t c ("schema:" ++ id) = Option.none) :
    (attempt_get_schema cfg t id true a c).requests = 1 := by
  simp only [attempt_get_schema, if_true, h]
  split
  · rfl
  · split
    · rfl
    · split
      · rfl
      · rfl

/-- The cache after one get_schema attempt: unchanged, or written through
`cacheSet` at the current time. -/
theorem attempt_get_schema_cache (cfg : ClientConfig) (t : Nat) (id : String)
    (uc : Bool) (a : Attempt) (c : List CacheEntry) :
    (attempt_get_schema cfg t id uc a c).cache = c ∨
    ∃ v, (attempt_get_schema cfg t id uc a c).cache
        = cacheSet cfg.cache_ttl cfg.cache_maxsize t c ("schema:" ++ id) v := by
  simp only [attempt_get_schema]
  split
  · exact Or.inl rfl
  · split
    · exact Or.inl rfl
    · split
      · exact Or.inl rfl
      · split
        · next res heq =>
          cases uc with
          | false => simp
          | true =>
            refine Or.inr ⟨res, ?_⟩
            simp
        · exact Or.inl rfl

/-- A get_schema attempt only adds cache entries stamped with the current
time: every entry of the resulting cache was present before or is new with
`storedAt = t`. -/
theorem attempt_get_schema_cache_sub {cfg : ClientConfig} {t : Nat} {id : String}
    {uc : Bool} {a : Attempt} {c : List CacheEntry} {e : CacheEntry}
    (he : e ∈ (attempt_get_schema cfg t id uc a c).cache) :
    e ∈ c ∨ e.storedAt = t := by
  rcases attempt_get_schema_cache cfg t id uc a c with h | ⟨v, h⟩
  · rw [h] at he
    exact Or.inl he
  · rw [h] at he
    rcases cacheSet_mem he with h2 | h2
    · exact Or.inl h2
    · rw [h2]
      exact Or.inr rfl

/-! ## Fixtures for the concrete scenarios -/

/-- A sample validated schema (version "1.0.0"). -/
def exSchema : Schema :=
  ⟨"telemetry", "InferenceEvent", "1.0.0", .json_schema, "schema-content", Option.none⟩

/-- A client with the constructor's default configuration. -/
def exCfg : ClientConfig := ⟨"http://localhost:8080", Option.none, 30, 3, 300, 1000⟩

/-- A sample stored schema record. -/
def exRecord : GetSchemaResponse :=
  ⟨"id-0001", "telemetry", "InferenceEvent", "1.0.0", .json_schema,
    "schema-content", Option.none, 5, 5⟩

/-- A 200 response whose body parses as `exRecord`. -/
def exRespGet : Response :=
  ⟨200, "", Option.none, some exRecord, Option.none, Option.none, Option.none,
    Option.none, Option.none⟩

/-- A 201 registration response. -/
def exRespRegister : Response :=
  ⟨201, "", Option.none, Option.none, some ⟨"id-0002", "1.0.0", 7⟩, Option.none,
    Option.none, Option.none, Option.none⟩

/-- A 404 response whose JSON body has message "no such schema". -/
def exResp404 : Response :=
  ⟨404, "resource not found", some ⟨some "no such schema", Option.none⟩,
    Option.none, Option.none, Option.none, Option.none, Option.none, Option.none⟩

/-- A 500 response whose JSON body has message "boom". -/
def exResp500 : Response :=
  ⟨500, "internal error", some ⟨some "boom", Option.none⟩, Option.none,
    Option.none, Option.none, Option.none, Option.none, Option.none⟩

/-- A 409 response whose JSON body carries incompatibilities ["a", "b"]. -/
def exResp409 : Response :=
  ⟨409, "", some ⟨some "conflict", some ["a", "b"]⟩, Option.none, Option.none,
    Option.none, Option.none, Option.none, Option.none⟩

/-! ## The claims -/

/-- C1: the claim says a successful register_schema for (ns, name) evicts any
cached entry a get_schema_by_version for that namespace and name would read,
making the next such call a cache miss. The code violates this: register
deletes the key `"telemetry.InferenceEvent"` while get_schema_by_version
reads `"schema:telemetry.InferenceEvent:1.0.0"`, so after a cached
get_schema_by_version and a successful register of the same schema, the next
get_schema_by_version is still answered from the cache — it returns the old
record with zero HTTP requests even when the network only times out. -/
theorem C1_register_leaves_byVersion_entry_cached :
    (register_schema exCfg
        (get_schema_by_version exCfg [] 0 "telemetry" "InferenceEvent" "1.0.0"
          (fun _ => .respond exRespGet)).1.cache
        1 exSchema (fun _ => .respond exRespRegister)).1.result
      = .ok ⟨"id-0002", "1.0.0", 7⟩
    ∧ (get_schema_by_version exCfg
        (register_schema exCfg
          (get_schema_by_version exCfg [] 0 "telemetry" "InferenceEvent" "1.0.0"
            (fun _ => .respond exRespGet)).1.cache
          1 exSchema (fun _ => .respond exRespRegister)).1.cache
        2 "telemetry" "InferenceEvent" "1.0.0" (fun _ => .timeoutAttempt)).1.result
      = .ok exRecord
    ∧ (get_schema_by_version exCfg
        (register_schema exCfg
          (get_schema_by_version exCfg [] 0 "telemetry" "InferenceEvent" "1.0.0"
            (fun _ => .respond exRespGet)).1.cache
          1 exSchema (fun _ => .respond exRespRegister)).1.cache
        2 "telemetry" "InferenceEvent" "1.0.0" (fun _ => .timeoutAttempt)).1.requests
      = 0 :=
  ⟨rfl, rfl, rfl⟩

/-- C2: the claim says every non-2xx response raises exactly one typed
registry error, with the raw text used as the message whenever the body is
not parseable JSON — for every status code including 409. The code violates
this at exactly that status: on a 409 whose body is not parseable JSON,
`error_data` was never assigned (it is bound only inside the `try`), so the
handler raises Python's UnboundLocalError instead of any typed error. -/
theorem C2_409_unparseable_body_raises_UnboundLocalError :
    handle_response_error
        ⟨409, "<html>conflict</html>", Option.none, Option.none, Option.none,
          Option.none, Option.none, Option.none, Option.none⟩
      = .error (.unboundLocal "error_data")
    ∧ ∀ re : RegistryError, PyError.unboundLocal "error_data" ≠ .registry re := by
  refine ⟨rfl, ?_⟩
  intro re h
  cases h

/-- C3: the claim says each operation's retry loop is bounded by the
max_retries value fixed at construction. The code violates this: max_retries
is stored on the client but every decorator hardcodes stop_after_attempt(3),
so a client built with max_retries = 1 still makes 3 attempts on persistent
timeouts before surfacing the failure. -/
theorem C3_max_retries_config_ignored :
    (ClientConfig.mk "http://localhost:8080" Option.none 30 1 300 1000).max_retries = 1
    ∧ (register_schema (ClientConfig.mk "http://localhost:8080" Option.none 30 1 300 1000)
        [] 0 exSchema (fun _ => .timeoutAttempt)).2 = 3
    ∧ (register_schema (ClientConfig.mk "http://localhost:8080" Option.none 30 1 300 1000)
        [] 0 exSchema (fun _ => .timeoutAttempt)).1.result
      = .error (.retryExhausted .timeout) :=
  ⟨rfl, rfl, rfl⟩

/-- C4 counterexample: the claim says a 404 raises a not-found error carrying
the identifier the caller asked for. A get_schema("abc-123") that receives a
404 whose body message is "no such schema" raises SchemaNotFoundError whose
schema_id is that message, not "abc-123". -/
theorem C4_counterexample_notFound_carries_message_not_id :
    (get_schema exCfg [] 0 "abc-123" true (fun _ => .respond exResp404)).1.result
      = .error (.registry (.notFound "no such schema"))
    ∧ "no such schema" ≠ "abc-123" := by
  refine ⟨rfl, ?_⟩
  decide

/-- C4 amended: for every 404 response, each identifier-taking operation
raises SchemaNotFoundError whose schema_id field is the message extracted
from the response (the body's `message` value, or the raw text when the body
is not parseable JSON) — which need not be the identifier the caller asked
for. -/
theorem C4_notFound_carries_response_message (cfg : ClientConfig) (t : Nat)
    (r : Response) (id ns nm ver data content : String) (mode : CompatibilityMode)
    (h : r.status = 404) :
    (get_schema cfg [] t id true (fun _ => .respond r)).1.result
        = .error (.registry (.notFound (errMessage r)))
    ∧ (get_schema_by_version cfg [] t ns nm ver (fun _ => .respond r)).1.result
        = .error (.registry (.notFound (errMessage r)))
    ∧ (validate_data cfg [] t id data (fun _ => .respond r)).1.result
        = .error (.registry (.notFound (errMessage r)))
    ∧ (check_compatibility cfg [] t id content mode (fun _ => .respond r)).1.result
        = .error (.registry (.notFound (errMessage r)))
    ∧ (delete_schema cfg [] t id (fun _ => .respond r)).1.result
        = .error (.registry (.notFound (errMessage r)))
    ∧ (list_versions cfg [] t ns nm (fun _ => .respond r)).1.result
        = .error (.registry (.notFound (errMessage r))) := by
  have hh := handle_404 h
  have hre : retryable (.registry (.notFound (errMessage r))) = false := rfl
  refine ⟨?_, ?_, ?_, ?_, ?_, ?_⟩
  · have ha : attempt_get_schema cfg t id true (Attempt.respond r) []
        = ⟨.error (.registry (.notFound (errMessage r))), [], 1⟩ := by
      simp [attempt_get_schema, cacheGet, hh]
    have hrun := runOp_nonretryable (attempt_get_schema cfg t id true)
      (fun _ => .respond r) [] (.registry (.notFound (errMessage r))) (by rw [ha]) hre
    simp [get_schema, hrun]
  · have ha : attempt_get_by_version cfg t ns nm ver (Attempt.respond r) []
        = ⟨.error (.registry (.notFound (errMessage r))), [], 1⟩ := by
      simp [attempt_get_by_version, cacheGet, hh]
    have hrun := runOp_nonretryable (attempt_get_by_version cfg t ns nm ver)
      (fun _ => .respond r) [] (.registry (.notFound (errMessage r))) (by rw [ha]) hre
    simp [get_schema_by_version, hrun]
  · have ha : attempt_plain (fun rr => rr.validateBody) (Attempt.respond r) ([] : List CacheEntry)
        = ⟨.error (.registry (.notFound (errMessage r))), [], 1⟩ := by
      simp [attempt_plain, hh]
    have hrun := runOp_nonretryable (attempt_plain (fun rr => rr.validateBody))
      (fun _ => .respond r) [] (.registry (.notFound (errMessage r))) (by rw [ha]) hre
    simp [validate_data, hrun]
  · have ha : attempt_plain (fun rr => rr.compatBody) (Attempt.respond r) ([] : List CacheEntry)
        = ⟨.error (.registry (.notFound (errMessage r))), [], 1⟩ := by
      simp [attempt_plain, hh]
    have hrun := runOp_nonretryable (attempt_plain (fun rr => rr.compatBody))
      (fun _ => .respond r) [] (.registry (.notFound (errMessage r))) (by rw [ha]) hre
    simp [check_compatibility, hrun]
  · have ha : attempt_delete cfg t id (Attempt.respond r) []
        = ⟨.error (.registry (.notFound (errMessage r))), [], 1⟩ := by
      simp [attempt_delete, hh]
    have hrun := runOp_nonretryable (attempt_delete cfg t id)
      (fun _ => .respond r) [] (.registry (.notFound (errMessage r))) (by rw [ha]) hre
    simp [delete_schema, hrun]
  · have ha : attempt_plain (fun rr => rr.versionsBody) (Attempt.respond r) ([] : List CacheEntry)
        = ⟨.error (.registry (.notFound (errMessage r))), [], 1⟩ := by
      simp [attempt_plain, hh]
    have hrun := runOp_nonretryable (attempt_plain (fun rr => rr.versionsBody))
      (fun _ => .respond r) [] (.registry (.notFound (errMessage r))) (by rw [ha]) hre
    simp [list_versions, hrun]

/-- Witness for C4's amended theorem at a concrete 404 response. -/
theorem C4_notFound_carries_response_message_witness :
    (get_schema exCfg [] 0 "abc-123" true (fun _ => .respond exResp404)).1.result
      = .error (.registry (.notFound (errMessage exResp404))) :=
  (C4_notFound_carries_response_message exCfg 0 exResp404 "abc-123" "ns" "nm"
    "1.0.0" "d" "ct" .backward rfl).1

theorem runRetry_attempts_ge {α : Type} (f : Attempt → List CacheEntry → StepOut α)
    (world : Nat → Attempt) :
    ∀ (fuel n : Nat) (c : List CacheEntry), n ≤ (runRetry f world fuel n c).2 := by
  intro fuel
  induction fuel with
  | zero => intro n c; simp [runRetry]
  | succ fuel ih =>
    intro n c
    simp only [runRetry]
    split
    · simp
    · split
      · split
        · simp
        · calc n ≤ n + 1 := by omega
            _ ≤ _ := ih (n + 1) _
      · simp

/-- A retryable first failure leads to a second attempt. -/
theorem runOp_retries_on_retryable {α : Type} (f : Attempt → List CacheEntry → StepOut α)
    (world : Nat → Attempt) (c : List CacheEntry) (e : PyError)
    (h : (f (world 1) c).result = .error e) (hr : retryable e = true) :
    2 ≤ (runOp f world c).2 := by
  have h2 := runRetry_attempts_ge f world 2 2 ((f (world 1) c).cache)
  show 2 ≤ (runRetry f world 3 1 c).2
  simp only [runRetry, h, hr]
  norm_num
  exact h2

theorem decoratorWait_zero : decoratorWait 0 = 1 := rfl

theorem decoratorWait_doubling (n : Nat) :
    decoratorWait (n + 1) = min (2 * decoratorWait n) 10 := by
  have h1 : 1 ≤ 2 ^ n := Nat.one_le_two_pow
  simp only [decoratorWait, wait_exponential, one_mul, pow_succ]
  omega

theorem decoratorWait_le (n : Nat) : decoratorWait n ≤ 10 := by
  simp only [decoratorWait, wait_exponential, one_mul]
  omega

/-- C5: the retry policy — a failure is retried iff it is a timeout or a
ServerError; every status of at least 500 maps to a (retryable) ServerError;
every other non-2xx outcome of error handling is non-retryable and surfaces
after exactly one attempt; a retryable first failure triggers a retry; the
loop never exceeds 3 attempts; backoff starts at 1, doubles, and is capped
at 10. -/
theorem C5_retry_policy :
    (∀ e : PyError, retryable e = true ↔ e = .timeout ∨ ∃ m, e = .registry (.server m))
    ∧ (∀ r : Response, isSuccess r.status = false → 500 ≤ r.status →
        handle_response_error r = .error (.registry (.server (errMessage r))))
    ∧ (∀ (r : Response) (e : PyError), r.status < 500 →
        handle_response_error r = .error e → retryable e = false)
    ∧ (∀ (α : Type) (f : Attempt → List CacheEntry → StepOut α)
        (world : Nat → Attempt) (c : List CacheEntry) (e : PyError),
        (f (world 1) c).result = .error e → retryable e = false →
        runOp f world c
          = (⟨.error e, (f (world 1) c).cache, (f (world 1) c).requests⟩, 1))
    ∧ (∀ (α : Type) (f : Attempt → List CacheEntry → StepOut α)
        (world : Nat → Attempt) (c : List CacheEntry) (e : PyError),
        (f (world 1) c).result = .error e → retryable e = true →
        2 ≤ (runOp f world c).2)
    ∧ (∀ (α : Type) (f : Attempt → List CacheEntry → StepOut α)
        (world : Nat → Attempt) (c : List CacheEntry), (runOp f world c).2 ≤ 3)
    ∧ stop_after_attempt_arg = 3
    ∧ decoratorWait 0 = 1
    ∧ (∀ n, decoratorWait (n + 1) = min (2 * decoratorWait n) 10)
    ∧ (∀ n, decoratorWait n ≤ 10) := by
  refine ⟨?_, ?_, ?_, ?_, ?_, ?_, rfl, rfl, decoratorWait_doubling, decoratorWait_le⟩
  · intro e
    cases e with
    | registry re => cases re <;> simp [retryable]
    | timeout => simp [retryable]
    | unboundLocal nm => simp [retryable]
    | valueError m => simp [retryable]
    | parseFailure w => simp [retryable]
    | retryExhausted l => simp [retryable]
  · intro r h1 h2
    exact handle_server h1 h2
  · intro r e hlt h
    by_cases hr : retryable e = true
    · exact absurd (handle_retryable_imp_500 h hr) (by omega)
    · simpa using hr
  · intro α f world c e h hr
    exact runOp_nonretryable f world c e h hr
  · intro α f world c e h hr
    exact runOp_retries_on_retryable f world c e h hr
  · intro α f world c
    exact runOp_attempts_le f world c

/-- Witness for C5 at concrete inputs: a 500 response maps to a retryable
ServerError, and a first-attempt 404 surfaces unretried after one attempt. -/
theorem C5_retry_policy_witness :
    handle_response_error exResp500 = .error (.registry (.server (errMessage exResp500)))
    ∧ runOp (attempt_delete exCfg 0 "abc") (fun _ => .respond exResp404) []
        = (⟨.error (.registry (.notFound "no such schema")), [], 1⟩, 1) := by
  constructor
  · exact C5_retry_policy.2.1 exResp500 (by decide) (by decide)
  · exact C5_retry_policy.2.2.2.1 Unit (attempt_delete exCfg 0 "abc")
      (fun _ => .respond exResp404) [] (.registry (.notFound "no such schema")) rfl rfl

/-- An ASCII decimal digit (codepoints 48 through 57). -/
def isAsciiDigit (c : Char) : Bool := 48 ≤ c.toNat && c.toNat ≤ 57

/-- The spec's notion of a version part, stated independently of the code:
the string parses as a non-negative decimal integer (nonempty, all ASCII
decimal digits). -/
def decimalNat? (p : String) : Option Nat :=
  if !p.data.isEmpty && p.data.all isAsciiDigit then
    some (p.data.foldl (fun n ch => 10 * n + (ch.toNat - 48)) 0)
  else Option.none

/-- The spec's version format, stated from its words rather than the code:
splitting on "." yields exactly three parts, each parsing as a non-negative
integer. Compared against `validate_version` below. -/
def specVersionValid (v : String) : Prop :=
  (pySplitDot v).length = 3 ∧ ∀ p ∈ pySplitDot v, (decimalNat? p).isSome = true

instance specVersionValid.decidable : DecidablePred specVersionValid := by
  intro v
  unfold specVersionValid
  exact instDecidableAnd

/-- The condition the code's validator actually tests: splitting on "."
yields exactly three parts, each nonempty and consisting of `str.isdigit()`
characters — a strictly wider set than the spec's decimal integers, since
`isdigit` also accepts non-decimal Unicode digit characters. -/
def pyVersionValid (v : String) : Prop :=
  (pySplitDot v).length = 3 ∧ ∀ p ∈ pySplitDot v, pyIsdigit p = true

instance pyVersionValid.decidable : DecidablePred pyVersionValid := by
  intro v
  unfold pyVersionValid
  exact instDecidableAnd

/-- The code's validator accepts exactly `pyVersionValid` (and returns the
string unchanged). -/
theorem validate_version_ok_iff (v : String) :
    validate_version v = .ok v ↔ pyVersionValid v := by
  unfold validate_version pyVersionValid
  by_cases h3 : (pySplitDot v).length = 3
  · rw [if_neg (by omega)]
    cases hf : (pySplitDot v).find? (fun part => !pyIsdigit part) with
    | some part =>
      have hmem := List.mem_of_find?_eq_some hf
      have hbad := List.find?_some hf
      simp only [Bool.not_eq_true'] at hbad
      constructor
      · intro h
        cases h
      · intro h
        rw [h.2 part hmem] at hbad
        cases hbad
    | none =>
      have hall := List.find?_eq_none.mp hf
      constructor
      · intro _
        refine ⟨h3, ?_⟩
        intro p hp
        have := hall p hp
        simp only [Bool.not_eq_true', Bool.not_eq_false] at this
        exact this
      · intro _
        rfl
  · rw [if_pos h3]
    constructor
    · intro h
      cases h
    · intro h
      exact absurd h.1 h3

/-- ASCII decimal digits are `str.isdigit()` digits (the first range of
`pyDigitRanges`). -/
theorem asciiDigit_pyCharIsdigit {c : Char} (h : isAsciiDigit c = true) :
    pyCharIsdigit c = true := by
  simp only [isAsciiDigit, Bool.and_eq_true, decide_eq_true_eq] at h
  simp only [pyCharIsdigit, pyDigitRanges, List.any_cons, Bool.or_eq_true,
    Bool.and_eq_true, decide_eq_true_eq]
  exact Or.inl ⟨h.1, h.2⟩

/-- Every spec-conforming version (three dot-separated non-negative decimal
integers) is accepted by the code's validator. -/
theorem specVersionValid_imp_py {v : String} (h : specVersionValid v) :
    pyVersionValid v := by
  refine ⟨h.1, ?_⟩
  intro p hp
  have h2 := h.2 p hp
  unfold decimalNat? at h2
  split at h2
  · next hg =>
    rcases Bool.and_eq_true_iff.mp hg with ⟨h1, h2all⟩
    unfold pyIsdigit
    refine Bool.and_eq_true_iff.mpr ⟨h1, ?_⟩
    rw [List.all_eq_true] at h2all ⊢
    intro x hx
    exact asciiDigit_pyCharIsdigit (h2all x hx)
  · cases h2

theorem validate_version_cases (v : String) :
    validate_version v = .ok v ∨ ∃ e, validate_version v = .error e := by
  simp only [validate_version]
  split
  · exact Or.inr ⟨_, rfl⟩
  · split
    · exact Or.inr ⟨_, rfl⟩
    · exact Or.inl rfl

/-- C6 counterexample: the claim says every version string that is not three
dot-separated non-negative integers fails validation before any network I/O.
The version "².0.0" is not three dot-separated non-negative integers (the
superscript two is not a decimal digit; Python's int("²") raises), yet
Python's str.isdigit() accepts non-decimal Unicode digit characters, so
validate_version accepts the string unchanged and register_schema performs
network I/O (one HTTP request, here succeeding) instead of failing
validation. -/
theorem C6_counterexample_unicode_digit_reaches_network :
    ¬ specVersionValid "².0.0"
    ∧ validate_version "².0.0" = .ok "².0.0"
    ∧ (register_flow exCfg [] 0 "telemetry" "InferenceEvent" "².0.0" .json_schema
        "schema-content" (fun _ => .respond exRespRegister)).1.requests = 1
    ∧ (register_flow exCfg [] 0 "telemetry" "InferenceEvent" "².0.0" .json_schema
        "schema-content" (fun _ => .respond exRespRegister)).1.result
      = .ok ⟨"id-0002", "1.0.0", 7⟩ := by
  exact ⟨by decide, rfl, rfl, rfl⟩

/-- C6 amended: the validator's acceptance set is three dot-separated
nonempty runs of `str.isdigit()` characters, a strict superset of the spec's
three dot-separated non-negative integers. Registering with a version
outside that set fails with a validation error before any HTTP request is
issued (zero requests); a version inside it is accepted unchanged and the
register call then performs network I/O (at least one request); and every
spec-conforming version is accepted. -/
theorem C6_version_validated_before_network (cfg : ClientConfig)
    (c : List CacheEntry) (t : Nat) (ns nm ver : String) (format : SchemaFormat)
    (content : String) (world : Nat → Attempt) :
    (¬ pyVersionValid ver →
      (register_flow cfg c t ns nm ver format content world).1.requests = 0
      ∧ ∃ msgs, (register_flow cfg c t ns nm ver format content world).1.result
          = .error (.registry (.validation msgs)))
    ∧ (pyVersionValid ver →
      mkSchema ns nm ver format content Option.none
          = .ok ⟨ns, nm, ver, format, content, Option.none⟩
      ∧ 1 ≤ (register_flow cfg c t ns nm ver format content world).1.requests)
    ∧ (specVersionValid ver → pyVersionValid ver) := by
  refine ⟨?_, ?_, fun h => specVersionValid_imp_py h⟩
  · intro hbad
    have hne : ¬ validate_version ver = .ok ver :=
      fun h => hbad ((validate_version_ok_iff ver).mp h)
    rcases validate_version_cases ver with h | ⟨e, he⟩
    · exact absurd h hne
    · have hmk : mkSchema ns nm ver format content Option.none = .error e := by
        unfold mkSchema
        rw [he]
      constructor
      · simp [register_flow, hmk]
      · exact ⟨[e], by simp [register_flow, hmk]⟩
  · intro hgood
    have hok := (validate_version_ok_iff ver).mpr hgood
    have hmk : mkSchema ns nm ver format content Option.none
        = .ok ⟨ns, nm, ver, format, content, Option.none⟩ := by
      unfold mkSchema
      rw [hok]
    refine ⟨hmk, ?_⟩
    have hflow : register_flow cfg c t ns nm ver format content world
        = register_schema cfg c t ⟨ns, nm, ver, format, content, Option.none⟩ world := by
      simp [register_flow, hmk]
    rw [hflow]
    have h1 := attempt_register_requests cfg t ⟨ns, nm, ver, format, content, Option.none⟩
      (world 1) c
    have h2 := runOp_requests_ge
      (attempt_register cfg t ⟨ns, nm, ver, format, content, Option.none⟩) world c
    rw [h1] at h2
    exact h2

/-- Witness for C6's amended theorem: version "1.0" is rejected with no
request issued; version "1.0.0" is accepted unchanged and is also
spec-conforming. -/
theorem C6_version_validated_before_network_witness :
    (register_flow exCfg [] 0 "telemetry" "InferenceEvent" "1.0" .json_schema
        "schema-content" (fun _ => .respond exRespRegister)).1.requests = 0
    ∧ mkSchema "telemetry" "InferenceEvent" "1.0.0" .json_schema "schema-content"
        Option.none
      = .ok ⟨"telemetry", "InferenceEvent", "1.0.0", .json_schema,
          "schema-content", Option.none⟩
    ∧ pyVersionValid "1.0.0" := by
  refine ⟨?_, ?_, ?_⟩
  · exact ((C6_version_validated_before_network exCfg [] 0 "telemetry"
      "InferenceEvent" "1.0" .json_schema "schema-content"
      (fun _ => .respond exRespRegister)).1 (by decide)).1
  · exact ((C6_version_validated_before_network exCfg [] 0 "telemetry"
      "InferenceEvent" "1.0.0" .json_schema "schema-content"
      (fun _ => .respond exRespRegister)).2.1 (by decide)).1
  · exact (C6_version_validated_before_network exCfg [] 0 "telemetry"
      "InferenceEvent" "1.0.0" .json_schema "schema-content"
      (fun _ => .respond exRespRegister)).2.2 (by decide)

/-- C7: the client never serves a cache entry past its TTL. Starting from any
cache whose entries predate time `t1`, after a get_schema call at `t1` and
once the TTL window has elapsed (`t1 + ttl ≤ t2`), the entry under that id's
key is no longer readable, and a repeated get_schema at `t2` issues at least
one fresh HTTP request instead of serving the stale entry. -/
theorem C7_no_stale_entry_after_ttl (cfg : ClientConfig) (c : List CacheEntry)
    (t1 t2 : Nat) (id : String) (uc : Bool) (world1 world2 : Nat → Attempt)
    (hmono : ∀ e ∈ c, e.storedAt ≤ t1) (hts : t1 + cfg.cache_ttl ≤ t2) :
    cacheGet cfg.cache_ttl t2 ((get_schema cfg c t1 id uc world1).1.cache)
        ("schema:" ++ id) = Option.none
    ∧ 1 ≤ (get_schema cfg ((get_schema cfg c t1 id uc world1).1.cache) t2 id true
        world2).1.requests := by
  have hP : ∀ e ∈ (get_schema cfg c t1 id uc world1).1.cache, e.storedAt ≤ t1 := by
    have hpres := runRetry_cache_preserved (fun cc => ∀ e ∈ cc, e.storedAt ≤ t1)
      (attempt_get_schema cfg t1 id uc) world1
      (fun a cc hcc e he => by
        rcases attempt_get_schema_cache_sub he with h | h
        · exact hcc e h
        · omega)
      stop_after_attempt_arg 1 c hmono
    exact hpres
  have hnone : cacheGet cfg.cache_ttl t2 ((get_schema cfg c t1 id uc world1).1.cache)
      ("schema:" ++ id) = Option.none :=
    cacheGet_eq_none_of_expired (fun e he => by have := hP e he; omega)
  refine ⟨hnone, ?_⟩
  have h1 : (attempt_get_schema cfg t2 id true (world2 1)
      ((get_schema cfg c t1 id uc world1).1.cache)).requests = 1 :=
    attempt_get_requests_of_miss hnone
  have h2 := runOp_requests_ge (attempt_get_schema cfg t2 id true) world2
    ((get_schema cfg c t1 id uc world1).1.cache)
  rw [h1] at h2
  exact h2

/-- Witness for C7: with the default 300-second TTL, an entry cached at time
0 is not served at time 300; the repeated call issues a request. -/
theorem C7_no_stale_entry_after_ttl_witness :
    cacheGet exCfg.cache_ttl 300 ((get_schema exCfg [] 0 "id-0001" true
        (fun _ => .respond exRespGet)).1.cache) ("schema:" ++ "id-0001")
      = Option.none
    ∧ 1 ≤ (get_schema exCfg ((get_schema exCfg [] 0 "id-0001" true
        (fun _ => .respond exRespGet)).1.cache) 300 "id-0001" true
        (fun _ => .respond exRespGet)).1.requests :=
  C7_no_stale_entry_after_ttl exCfg [] 0 300 "id-0001" true
    (fun _ => .respond exRespGet) (fun _ => .respond exRespGet)
    (by simp) (by decide)

/-- C8: a get_schema(id, use_cache=true) that fetches and succeeds, repeated
with use_cache=true within the TTL window with nothing in between, returns
the identical record from the cache with zero HTTP requests. -/
theorem C8_repeat_within_ttl_served_from_cache (cfg : ClientConfig)
    (c : List CacheEntry) (t1 t2 : Nat) (id : String) (r : Response)
    (rec : GetSchemaResponse) (world2 : Nat → Attempt)
    (hmax : 1 ≤ cfg.cache_maxsize)
    (hmiss : cacheGet cfg.cache_ttl t1 c ("schema:" ++ id) = Option.none)
    (hok : isSuccess r.status = true) (hrec : r.record = some rec)
    (hwin : t2 < t1 + cfg.cache_ttl) :
    (get_schema cfg c t1 id true (fun _ => .respond r)).1.result = .ok rec
    ∧ (get_schema cfg ((get_schema cfg c t1 id true (fun _ => .respond r)).1.cache)
        t2 id true world2).1.result = .ok rec
    ∧ (get_schema cfg ((get_schema cfg c t1 id true (fun _ => .respond r)).1.cache)
        t2 id true world2).1.requests = 0 := by
  have ha1 : attempt_get_schema cfg t1 id true (Attempt.respond r) c
      = ⟨.ok rec, cacheSet cfg.cache_ttl cfg.cache_maxsize t1 c ("schema:" ++ id) rec, 1⟩ := by
    simp [attempt_get_schema, hmiss, handle_success hok, hrec]
  have hrun1 := runOp_ok (attempt_get_schema cfg t1 id true) (fun _ => .respond r)
    c rec (by simp [ha1])
  have hc1 : (get_schema cfg c t1 id true (fun _ => .respond r)).1.cache
      = cacheSet cfg.cache_ttl cfg.cache_maxsize t1 c ("schema:" ++ id) rec := by
    simp [get_schema, hrun1, ha1]
  have hres1 : (get_schema cfg c t1 id true (fun _ => .respond r)).1.result
      = .ok rec := by
    simp [get_schema, hrun1]
  set c1 := (get_schema cfg c t1 id true (fun _ => .respond r)).1.cache with hc1def
  have hhit : cacheGet cfg.cache_ttl t2 c1 ("schema:" ++ id) = some rec := by
    rw [hc1]
    exact cacheGet_set_same hmax hwin
  have ha2 : attempt_get_schema cfg t2 id true (world2 1) c1
      = ⟨.ok rec, c1, 0⟩ := by
    simp [attempt_get_schema, hhit]
  have hrun2 := runOp_ok (attempt_get_schema cfg t2 id true) world2 c1 rec
    (by simp [ha2])
  refine ⟨hres1, ?_, ?_⟩
  · simp [get_schema, hrun2]
  · simp [get_schema, hrun2, ha2]

/-- Witness for C8: a fetch at time 0 repeated at time 10 is served from the
cache — even with the network timing out — with zero requests. -/
theorem C8_repeat_within_ttl_served_from_cache_witness :
    (get_schema exCfg [] 0 "id-0001" true (fun _ => .respond exRespGet)).1.result
      = .ok exRecord
    ∧ (get_schema exCfg ((get_schema exCfg [] 0 "id-0001" true
        (fun _ => .respond exRespGet)).1.cache) 10 "id-0001" true
        (fun _ => .timeoutAttempt)).1.result = .ok exRecord
    ∧ (get_schema exCfg ((get_schema exCfg [] 0 "id-0001" true
        (fun _ => .respond exRespGet)).1.cache) 10 "id-0001" true
        (fun _ => .timeoutAttempt)).1.requests = 0 :=
  C8_repeat_within_ttl_served_from_cache exCfg [] 0 10 "id-0001" exRespGet
    exRecord (fun _ => .timeoutAttempt) (by decide) rfl (by decide) rfl (by decide)

theorem handle_409 {r : Response} {b : ErrorBody} (h : r.status = 409)
    (hb : r.errorJson = some b) :
    handle_response_error r
      = .error (.registry (.incompatible
          (b.incompatibilities.getD [b.message.getD r.text]))) := by
  simp [handle_response_error, h, isSuccess, hb, errMessage]

/-- C9: a 409 whose parsed body lists incompatibilities ["a","b",...] makes
check_compatibility (and register_schema) raise IncompatibleSchemaError
exposing exactly that list in order; when the body has no incompatibilities
field, the error falls back to the single-element list of the body's
message. -/
theorem C9_409_incompatibility_list (cfg : ClientConfig) (c : List CacheEntry)
    (t : Nat) (id content : String) (mode : CompatibilityMode) (schema : Schema)
    (r : Response) (b : ErrorBody) (l : List String) (m : String)
    (h409 : r.status = 409) (hbody : r.errorJson = some b) :
    (b.incompatibilities = some l →
      (check_compatibility cfg c t id content mode (fun _ => .respond r)).1.result
        = .error (.registry (.incompatible l))
      ∧ (register_schema cfg c t schema (fun _ => .respond r)).1.result
        = .error (.registry (.incompatible l)))
    ∧ (b.incompatibilities = Option.none → b.message = some m →
      (check_compatibility cfg c t id content mode (fun _ => .respond r)).1.result
        = .error (.registry (.incompatible [m]))) := by
  constructor
  · intro hl
    have hh : handle_response_error r = .error (.registry (.incompatible l)) := by
      simp [handle_409 h409 hbody, hl]
    have hre : retryable (.registry (.incompatible l)) = false := rfl
    constructor
    · have ha : attempt_plain (fun rr => rr.compatBody) (Attempt.respond r) c
          = ⟨.error (.registry (.incompatible l)), c, 1⟩ := by
        simp [attempt_plain, hh]
      have hrun := runOp_nonretryable (attempt_plain (fun rr => rr.compatBody))
        (fun _ => .respond r) c (.registry (.incompatible l)) (by simp [ha]) hre
      simp [check_compatibility, hrun]
    · have ha : attempt_register cfg t schema (Attempt.respond r) c
          = ⟨.error (.registry (.incompatible l)), c, 1⟩ := by
        simp [attempt_register, hh]
      have hrun := runOp_nonretryable (attempt_register cfg t schema)
        (fun _ => .respond r) c (.registry (.incompatible l)) (by simp [ha]) hre
      simp [register_schema, hrun]
  · intro hnone hm
    have hh : handle_response_error r = .error (.registry (.incompatible [m])) := by
      simp [handle_409 h409 hbody, hnone, hm]
    have hre : retryable (.registry (.incompatible [m])) = false := rfl
    have ha : attempt_plain (fun rr => rr.compatBody) (Attempt.respond r) c
        = ⟨.error (.registry (.incompatible [m])), c, 1⟩ := by
      simp [attempt_plain, hh]
    have hrun := runOp_nonretryable (attempt_plain (fun rr => rr.compatBody))
      (fun _ => .respond r) c (.registry (.incompatible [m])) (by simp [ha]) hre
    simp [check_compatibility, hrun]

/-- Witness for C9 at a concrete 409 carrying incompatibilities ["a","b"]. -/
theorem C9_409_incompatibility_list_witness :
    (check_compatibility exCfg [] 0 "id-0001" "content" .backward
        (fun _ => .respond exResp409)).1.result
      = .error (.registry (.incompatible ["a", "b"])) :=
  ((C9_409_incompatibility_list exCfg [] 0 "id-0001" "content" .backward exSchema
      exResp409 ⟨some "conflict", some ["a", "b"]⟩ ["a", "b"] "conflict"
      rfl rfl).1 rfl).1

/-- C10: a successful delete_schema(id) removes the "schema:{id}" cache
entry (if present) and nothing else: lookups under every other key — in
particular the namespace+name+version keys written by get_schema_by_version —
are unchanged at every time. -/
theorem C10_delete_frame (cfg : ClientConfig) (c : List CacheEntry) (t : Nat)
    (id : String) (r : Response) (hok : isSuccess r.status = true) :
    (delete_schema cfg c t id (fun _ => .respond r)).1.result = .ok ()
    ∧ cacheContains cfg.cache_ttl t
        ((delete_schema cfg c t id (fun _ => .respond r)).1.cache) ("schema:" ++ id)
      = false
    ∧ ∀ k : String, k ≠ "schema:" ++ id → ∀ tq : Nat,
        cacheGet cfg.cache_ttl tq
            ((delete_schema cfg c t id (fun _ => .respond r)).1.cache) k
          = cacheGet cfg.cache_ttl tq c k := by
  have ha : attempt_delete cfg t id (Attempt.respond r) c
      = ⟨.ok (), cacheEvict cfg.cache_ttl t c ("schema:" ++ id), 1⟩ := by
    simp [attempt_delete, handle_success hok]
  have hrun := runOp_ok (attempt_delete cfg t id) (fun _ => .respond r) c ()
    (by simp [ha])
  have hcache : (delete_schema cfg c t id (fun _ => .respond r)).1.cache
      = cacheEvict cfg.cache_ttl t c ("schema:" ++ id) := by
    simp [delete_schema, hrun, ha]
  refine ⟨by simp [delete_schema, hrun], ?_, ?_⟩
  · rw [hcache]
    exact cacheContains_evict_self
  · intro k hk tq
    rw [hcache]
    exact cacheGet_evict_ne hk

/-- Witness for C10: deleting "abc" succeeds and leaves the entry under
"schema:other" readable exactly as before. -/
theorem C10_delete_frame_witness :
    (delete_schema exCfg [⟨"schema:other", exRecord, 0⟩] 0 "abc"
        (fun _ => .respond exRespGet)).1.result = .ok ()
    ∧ cacheGet exCfg.cache_ttl 0
        ((delete_schema exCfg [⟨"schema:other", exRecord, 0⟩] 0 "abc"
          (fun _ => .respond exRespGet)).1.cache) "schema:other"
      = cacheGet exCfg.cache_ttl 0 [⟨"schema:other", exRecord, 0⟩] "schema:other" := by
  constructor
  · exact (C10_delete_frame exCfg [⟨"schema:other", exRecord, 0⟩] 0 "abc"
      exRespGet (by decide)).1
  · exact (C10_delete_frame exCfg [⟨"schema:other", exRecord, 0⟩] 0 "abc"
      exRespGet (by decide)).2.2 "schema:other" (by decide) 0

end SchemaRegistry
